import Mathlib

/-!
Shallow embedding of the metrics-exposition core of pgexporter
(src/libpgexporter/prometheus.c), together with theorems settling the
specification claims about it.

Strings are modelled by Lean `String` / `List Char`; C `NULL` string
arguments by `Option String`; epoch times (`time_t`) by `Nat`.
-/

namespace Pgexporter

/-- One sample: mirrors `struct prometheus_value` (timestamp, pre-formatted
value string). -/
structure PValue where
  timestamp : Nat
  value : String
deriving DecidableEq

/-- One label pair: mirrors `struct prometheus_attribute` (key, value). -/
structure PAttribute where
  key : String
  value : String
deriving DecidableEq

/-- One series: mirrors `struct prometheus_attributes` (deque of label
pairs, deque of samples). -/
structure PAttributes where
  attributes : List PAttribute
  values : List PValue
deriving DecidableEq

/-- One metric family: mirrors `struct prometheus_metric` (name, help,
type, deque of series definitions). -/
structure PMetric where
  name : String
  help : String
  type : String
  definitions : List PAttributes
deriving DecidableEq

/-! ## Text serialization (metrics_page, prometheus.c lines 606-676) -/

/-- The value picked for a series line: `pgexporter_deque_peek_last` on the
values deque (prometheus.c line 639).  The C code dereferences the result
unconditionally; we return `""` for the empty deque, a case the theorems
exclude. -/
def peek_last_value (vs : List PValue) : String :=
  match vs.getLast? with
  | some v => v.value
  | none => ""

/-- The label block of a series line, built by the inner attributes loop of
`metrics_page` (lines 644-657): `key="value"` pairs joined by `", "`
exactly when `pgexporter_deque_iterator_has_next` holds. -/
def attrs_text : List PAttribute → String
  | [] => ""
  | a :: rest =>
      a.key ++ "=\"" ++ a.value ++ "\"" ++
        (if rest.isEmpty then "" else ", ") ++ attrs_text rest

/-- One series line of `metrics_page` (lines 641-662):
`<name>{<attrs>} <value>\n`. -/
def definition_line (name : String) (d : PAttributes) : String :=
  name ++ "\x7b" ++ attrs_text d.attributes ++ "\x7d " ++
    peek_last_value d.values ++ "\n"

/-- The definitions part of one family chunk: the `while
(pgexporter_deque_iterator_next(definition_iterator))` loop (lines
628-665). -/
def definitions_text (name : String) : List PAttributes → String
  | [] => ""
  | d :: rest => definition_line name d ++ definitions_text name rest

/-- One family chunk of `metrics_page` (lines 611-667): `#HELP` line,
`#TYPE` line, series lines, and one blank line. -/
def family_text (m : PMetric) : String :=
  "#HELP " ++ m.name ++ " " ++ m.help ++ "\n" ++
  "#TYPE " ++ m.name ++ " " ++ m.type ++ "\n" ++
  definitions_text m.name m.definitions ++ "\n"

/-- The whole exposition body produced by the `while
(pgexporter_art_iterator_next(metrics_iterator))` loop of `metrics_page`
(lines 606-676): the concatenation of the per-family chunks, in registry
iteration order. -/
def metrics_page_body : List PMetric → String
  | [] => ""
  | m :: rest => family_text m ++ metrics_page_body rest

/-- The family chunk as the specification words it (`# HELP`, `# TYPE`,
labels joined by a bare comma).  Used only to compare the spec's claimed
format against the code's actual output. -/
def claimed_attrs_text : List PAttribute → String
  | [] => ""
  | a :: rest =>
      a.key ++ "=\"" ++ a.value ++ "\"" ++
        (if rest.isEmpty then "" else ",") ++ claimed_attrs_text rest

/-- Per-series line under the spec's claimed format. -/
def claimed_definition_line (name : String) (d : PAttributes) : String :=
  name ++ "\x7b" ++ claimed_attrs_text d.attributes ++ "\x7d " ++
    peek_last_value d.values ++ "\n"

/-- Per-family chunk under the spec's claimed format. -/
def claimed_family_text (m : PMetric) : String :=
  "# HELP " ++ m.name ++ " " ++ m.help ++ "\n" ++
  "# TYPE " ++ m.name ++ " " ++ m.type ++ "\n" ++
  String.join (m.definitions.map (claimed_definition_line m.name)) ++ "\n"

/-- Whole body under the spec's claimed format. -/
def claimed_metrics_page_body (ms : List PMetric) : String :=
  String.join (ms.map claimed_family_text)

/-! ## Cache (prometheus.c lines 2501-2719) -/

/-- The shared-memory cache object: mirrors `struct prometheus_cache`
(`valid_until`, `size`, `data`).  `data` holds the NUL-terminated body, so
it is modelled as the string of bytes before the first NUL; invalidation
zero-fills the buffer, i.e. makes the body empty. -/
structure PrometheusCache where
  valid_until : Nat
  size : Nat
  data : String
deriving DecidableEq

/-- `metrics_cache_invalidate` (lines 2629-2638): zero-fill the payload and
reset `valid_until`. -/
def metrics_cache_invalidate (c : PrometheusCache) : PrometheusCache :=
  { c with data := "", valid_until := 0 }

/-- `metrics_cache_append` (lines 2657-2689).  `configured` is the result
of `is_metrics_cache_configured()`.  Returns the new cache state and the
`bool` result of the C function. -/
def metrics_cache_append (configured : Bool) (c : PrometheusCache)
    (d : String) : PrometheusCache × Bool :=
  if !configured then
    (c, false)
  else if c.data.length + d.length ≥ c.size then
    (metrics_cache_invalidate c, false)
  else
    ({ c with data := c.data ++ d }, true)

/-- `is_metrics_cache_valid` (lines 2533-2549): false when `valid_until`
is zero or the payload is empty, else `now <= valid_until`. -/
def is_metrics_cache_valid (c : PrometheusCache) (now : Nat) : Bool :=
  if c.valid_until = 0 || c.data = "" then false
  else decide (now ≤ c.valid_until)

/-- The cache-service decision of `metrics_page` (line 524):
`is_metrics_cache_configured() && is_metrics_cache_valid()`. -/
def metrics_cache_servable (configured : Bool) (c : PrometheusCache)
    (now : Nat) : Bool :=
  configured && is_metrics_cache_valid c now

/-- `metrics_cache_finalize` (lines 2701-2719). -/
def metrics_cache_finalize (configured : Bool) (max_age : Nat)
    (c : PrometheusCache) (now : Nat) : PrometheusCache × Bool :=
  if !configured then
    (c, false)
  else
    ({ c with valid_until := now + max_age },
     decide (now + max_age > now))

/-! ## HTTP request routing (prometheus.c lines 152-298) -/

/-- Page codes of prometheus.c lines 55-58. -/
inductive Page where
  | unknown
  | home
  | metrics
  | badRequest
deriving DecidableEq

/-- `resolve_page` (lines 266-298), on the raw request bytes.  The C code
rejects messages shorter than 3 bytes or not starting with `GET`
(`strncmp(msg->data, "GET", 3)`); otherwise it reads the path starting at
byte 4 up to the first space (the C loop requires such a space byte to
exist; the model totalizes with `takeWhile`). -/
def resolve_page (req : List Char) : Page :=
  if req.length < 3 || req.take 3 ≠ ['G', 'E', 'T'] then
    Page.badRequest
  else
    let fromPath := (req.drop 4).takeWhile (fun c => c ≠ ' ')
    if fromPath = "/".data || fromPath = "/index.html".data then
      Page.home
    else if fromPath = "/metrics".data then
      Page.metrics
    else
      Page.unknown

/-- The HTTP status class each page handler answers with:
`home_page` → 200 HTML index, `metrics_page` → 200 scrape,
`unknown_page` → 403 Forbidden, `bad_request` → 400 Bad Request. -/
inductive HttpOutcome where
  | htmlIndex
  | metricsScrape
  | forbidden403
  | badRequest400
deriving DecidableEq

/-- The dispatch of `pgexporter_prometheus` (lines 172-189): each page code
is routed to its handler. -/
def pgexporter_prometheus_route (req : List Char) : HttpOutcome :=
  match resolve_page req with
  | Page.home => HttpOutcome.htmlIndex
  | Page.metrics => HttpOutcome.metricsScrape
  | Page.unknown => HttpOutcome.forbidden403
  | Page.badRequest => HttpOutcome.badRequest400

/-! ## Collector allow-list (prometheus.c lines 766-787) -/

/-- `collector_pass` (lines 766-787).  The configured collector names
`config->collectors[0..number_of_collectors-1]` are modelled as a list;
`strcmp(...) == 0` is string equality. -/
def collector_pass (collectors : List String) (collector : String) : Bool :=
  if collectors.length = 0 then
    true
  else
    collectors.any (fun c => c = collector)

/-! ## Label-safe encoder (prometheus.c lines 2430-2499) -/

/-- The characters `safe_prometheus_key` writes for one input character
(lines 2462-2487).  `isLast` tells whether this is the final character of
the key (`i == strlen(key) - 1`): a trailing `.` writes a NUL, which
truncates the C string there, i.e. contributes nothing. -/
def safe_prometheus_key_char (c : Char) (isLast : Bool) : List Char :=
  if c = '.' then
    if isLast then [] else ['_']
  else if c = '"' || c = '\\' then
    ['\\', c]
  else
    [c]

/-- The character loop of `safe_prometheus_key` (lines 2462-2487). -/
def safe_prometheus_key_go : List Char → List Char
  | [] => []
  | c :: rest =>
      safe_prometheus_key_char c rest.isEmpty ++ safe_prometheus_key_go rest

/-- `safe_prometheus_key` (lines 2449-2490).  A NULL or empty key returns
the static empty string. -/
def safe_prometheus_key (key : Option String) : String :=
  match key with
  | none => ""
  | some k =>
      if k.length = 0 then "" else String.mk (safe_prometheus_key_go k.data)

/-- A string is well-escaped when every `"` and every `\` in it occurs
only as part of an escape pair `\"` or `\\`: scanning left to right, a
bare `"` is illegal and a `\` must be followed by `"` or `\`. -/
def wellEscaped : List Char → Bool
  | [] => true
  | c :: rest =>
      if c = '"' then false
      else if c = '\\' then
        match rest with
        | [] => false
        | d :: rest2 => (d = '"' || d = '\\') && wellEscaped rest2
      else wellEscaped rest

/-! ## Histogram assembly (prometheus.c lines 1992-2338) -/

/-- The comma splitter behind `strtok(data, ",")`: split on `,`. -/
def splitComma : List Char → List (List Char)
  | [] => [[]]
  | c :: rest =>
      match splitComma rest with
      | [] => [[]]
      | t :: ts => if c = ',' then [] :: t :: ts else (c :: t) :: ts

/-- `parse_list` (lines 2300-2338): strip the leading `{` and trailing
`}` (the first and last byte), then tokenize on `,`.  `strtok` skips runs
of delimiters, so empty tokens are dropped. -/
def parse_list (list_str : String) : List String :=
  let data := (list_str.data.drop 1).dropLast
  ((splitComma data).filter (fun t => !t.isEmpty)).map (fun t => String.mk t)

/-- One histogram input tuple as `handle_histogram` consumes it: the
label columns before the histogram column (keys with their cell values),
the server name `config->servers[current->server].name`, and the four
histogram cells `X`, `X_bucket`, `X_sum`, `X_count` fetched by
`pgexporter_get_column_by_name`. -/
structure HTuple where
  labels : List PAttribute
  server : String
  bounds_str : String
  buckets_str : String
  sum_str : String
  count_str : String

/-- The bucket series `handle_histogram` emits for one tuple (lines
2085-2193): one series per parsed bound carrying `le = bounds[i]` and
value `buckets[i]`, then the synthesized `le="+Inf"` series whose value is
the `X_count` cell.  Label order per series: `le`, `server`, then the
label columns `0..h_idx-1`. -/
def histogram_bucket_defs (now : Nat) (t : HTuple) : List PAttributes :=
  let bounds := parse_list t.bounds_str
  let buckets := parse_list t.buckets_str
  ((List.range bounds.length).map (fun i =>
    { attributes := { key := "le", value := bounds.getD i "" } ::
        { key := "server", value := t.server } :: t.labels,
      values := [{ timestamp := now, value := buckets.getD i "" }] })) ++
  [{ attributes := { key := "le", value := "+Inf" } ::
      { key := "server", value := t.server } :: t.labels,
     values := [{ timestamp := now, value := t.count_str }] }]

/-- The sum series for one tuple (lines 2195-2233): labels `server` then
the label columns, value from the `X_sum` cell. -/
def histogram_sum_def (now : Nat) (t : HTuple) : PAttributes :=
  { attributes := { key := "server", value := t.server } :: t.labels,
    values := [{ timestamp := now, value := t.sum_str }] }

/-- The count series for one tuple (lines 2235-2273): labels `server` then
the label columns, value from the `X_count` cell. -/
def histogram_count_def (now : Nat) (t : HTuple) : PAttributes :=
  { attributes := { key := "server", value := t.server } :: t.labels,
    values := [{ timestamp := now, value := t.count_str }] }

/-- `handle_histogram` (lines 1992-2298): builds the three metrics
`pgexporter_<tag>_bucket`, `pgexporter_<tag>_sum`,
`pgexporter_<tag>_count` (all of type `histogram`, help text from the
histogram column's description), folding the tuple list in order. -/
def handle_histogram (now : Nat) (tag : String) (description : String)
    (tuples : List HTuple) : PMetric × PMetric × PMetric :=
  ({ name := "pgexporter_" ++ tag ++ "_bucket",
     help := description, type := "histogram",
     definitions := (tuples.map (histogram_bucket_defs now)).flatten },
   { name := "pgexporter_" ++ tag ++ "_sum",
     help := description, type := "histogram",
     definitions := tuples.map (histogram_sum_def now) },
   { name := "pgexporter_" ++ tag ++ "_count",
     help := description, type := "histogram",
     definitions := tuples.map (histogram_count_def now) })

/-! ## Value coercer (prometheus.c lines 2382-2428)

`get_value` relies on C `strtol(val, &end, 10)` / `strtod(val, &end)` and
tests `*end == '\0'`, i.e. whether the whole string is consumed.  The two
acceptance languages are modelled below: optional leading C whitespace,
optional sign, then digits (strtol), or a C99 floating literal — decimal
or hexadecimal mantissa with optional exponent, or the `inf` / `infinity`
/ `nan` spellings, case-insensitive (strtod). -/

/-- `isspace` characters skipped by strtol/strtod. -/
def isCWhitespace (c : Char) : Bool :=
  c = ' ' || c = '\t' || c = '\n' || c = '\x0b' || c = '\x0c' || c = '\r'

/-- ASCII decimal digit. -/
def isDigitChar (c : Char) : Bool := '0' ≤ c && c ≤ '9'

/-- ASCII hexadecimal digit. -/
def isHexDigitChar (c : Char) : Bool :=
  isDigitChar c || ('a' ≤ c && c ≤ 'f') || ('A' ≤ c && c ≤ 'F')

/-- Drop one leading `+` or `-` if present. -/
def dropSign : List Char → List Char
  | [] => []
  | c :: rest => if c = '+' || c = '-' then rest else c :: rest

/-- An optional exponent part ending the string: empty, or the marker
(`e`/`E`, resp. `p`/`P`) followed by an optionally signed nonempty digit
string.  An incomplete exponent makes strtol/strtod stop earlier, so the
whole string is not consumed. -/
def exponentTail (e1 e2 : Char) : List Char → Bool
  | [] => true
  | c :: rest =>
      if c = e1 || c = e2 then
        let r := dropSign rest
        !r.isEmpty && r.all isDigitChar
      else false

/-- Decimal mantissa (digits with at most one point, at least one digit)
followed by an optional `e`-exponent, consuming the whole string. -/
def decMantissaTail (cs : List Char) : Bool :=
  let d1 := cs.takeWhile isDigitChar
  let r1 := cs.dropWhile isDigitChar
  match r1 with
  | '.' :: r2 =>
      let d2 := r2.takeWhile isDigitChar
      let r3 := r2.dropWhile isDigitChar
      (!d1.isEmpty || !d2.isEmpty) && exponentTail 'e' 'E' r3
  | _ => !d1.isEmpty && exponentTail 'e' 'E' r1

/-- Hexadecimal mantissa followed by an optional `p`-exponent, consuming
the whole string. -/
def hexMantissaTail (cs : List Char) : Bool :=
  let d1 := cs.takeWhile isHexDigitChar
  let r1 := cs.dropWhile isHexDigitChar
  match r1 with
  | '.' :: r2 =>
      let d2 := r2.takeWhile isHexDigitChar
      let r3 := r2.dropWhile isHexDigitChar
      (!d1.isEmpty || !d2.isEmpty) && exponentTail 'p' 'P' r3
  | _ => !d1.isEmpty && exponentTail 'p' 'P' r1

/-- The `inf` / `infinity` spellings, case-insensitive, whole string. -/
def isInfTail (cs : List Char) : Bool :=
  let l := cs.map Char.toLower
  l = "inf".data || l = "infinity".data

/-- Characters allowed in a `nan(n-char-seq)` payload. -/
def isNanSeqChar (c : Char) : Bool :=
  isDigitChar c || ('a' ≤ c.toLower && c.toLower ≤ 'z') || c = '_'

/-- The `nan` / `nan(n-char-seq)` spellings, case-insensitive, whole
string. -/
def isNanTail (cs : List Char) : Bool :=
  match cs.map Char.toLower with
  | 'n' :: 'a' :: 'n' :: rest =>
      match rest with
      | [] => true
      | '(' :: more =>
          decide (more.getLast? = some ')') && more.dropLast.all isNanSeqChar
      | _ => false
  | _ => false

/-- Full-string acceptance of `strtol(val, &end, 10)` (`*end == '\0'`):
whitespace, optional sign, at least one digit, nothing else. -/
def strtol_full (cs : List Char) : Bool :=
  let t := dropSign (cs.dropWhile isCWhitespace)
  !t.isEmpty && t.all isDigitChar

/-- Full-string acceptance of `strtod(val, &end)` (`*end == '\0'`). -/
def strtod_full (cs : List Char) : Bool :=
  let t := dropSign (cs.dropWhile isCWhitespace)
  match t with
  | '0' :: x :: rest =>
      if x = 'x' || x = 'X' then hexMantissaTail rest
      else decMantissaTail t
  | _ => decMantissaTail t || isInfTail t || isNanTail t

/-- `get_value` (lines 2382-2428).  The `tag` and `name` parameters only
feed a commented-out trace call, so they are omitted.  A C NULL argument
is `none`. -/
def get_value (val : Option String) : String :=
  match val with
  | none => "0"
  | some v =>
      if v = "" then "0"
      else if v = "off" || v = "f" || v = "(disabled)" then "0"
      else if v = "on" || v = "t" then "1"
      else if v = "NaN" then v
      else if strtol_full v.data then v
      else if strtod_full v.data then v
      else "1"

/-- The spec's "integer regex": optional sign then a nonempty digit
string.  Used only to state the spec's claimed output classes. -/
def claimed_integer_lex (cs : List Char) : Bool :=
  let t := dropSign cs
  !t.isEmpty && t.all isDigitChar

/-- The spec's "decimal regex", read generously: optional sign, decimal
mantissa with optional point, optional `e`-exponent.  Used only to state
the spec's claimed output classes. -/
def claimed_decimal_lex (cs : List Char) : Bool :=
  decMantissaTail (dropSign cs)

/-- The spec's claimed set of legal output forms for the value coercer:
`NaN`, `+Inf`, `-Inf`, an integer, or a decimal. -/
def claimed_legal_value (s : String) : Bool :=
  s = "NaN" || s = "+Inf" || s = "-Inf" ||
    claimed_integer_lex s.data || claimed_decimal_lex s.data

/-! ## Lock handling in metrics_page (prometheus.c lines 497-727)

`metrics_page` CAS-acquires `cache->lock` (line 521) and stores
`STATE_FREE` back only at line 700, which every `goto error` (lines 539,
573, 584, 603, 625, 636, 693) jumps past: the `error` label (line 718)
only destroys the bridge and frees `data`.  The post-acquire control flow
is modelled as a function of the outcomes of the fallible steps. -/

/-- The cache lock word: `STATE_FREE` / `STATE_IN_USE`. -/
inductive LockWord where
  | free
  | inUse
deriving DecidableEq

/-- Result of `metrics_page`: 0 (ok) or 1 (error). -/
inductive MPResult where
  | ok
  | err
deriving DecidableEq

/-- Outcomes of the fallible steps taken by `metrics_page` after the CAS
acquisition succeeded. -/
structure ScrapeEnv where
  /-- `is_metrics_cache_configured() && is_metrics_cache_valid()`, line 524. -/
  cacheHit : Bool
  /-- `pgexporter_write_message` of the cached body succeeds, line 536. -/
  writeCachedOk : Bool
  /-- `pgexporter_write_message` of the response headers succeeds, line 570. -/
  writeHeaderOk : Bool
  /-- `pgexporter_prometheus_client_create_bridge` succeeds, line 582. -/
  bridgeCreateOk : Bool
  /-- `pgexporter_art_iterator_create` succeeds, line 601. -/
  metricsIterCreateOk : Bool
  /-- every `pgexporter_deque_iterator_create` succeeds, lines 623, 634. -/
  defIterCreateOk : Bool
  /-- `pgexporter_write_message` of the final `0\r\n\r\n` succeeds, line 690. -/
  writeFooterOk : Bool
deriving DecidableEq

/-- The continuation of `metrics_page` after the lock CAS moved
`cache->lock` from FREE to IN_USE (lines 522-701 plus the `error` label),
returning the function result and the final value of the lock word. -/
def metrics_page_after_lock (env : ScrapeEnv) : MPResult × LockWord :=
  if env.cacheHit then
    if env.writeCachedOk then
      (MPResult.ok, LockWord.free)        -- falls through to line 700
    else
      (MPResult.err, LockWord.inUse)      -- goto error, line 539
  else
    if !env.writeHeaderOk then
      (MPResult.err, LockWord.inUse)      -- goto error, line 573
    else if !env.bridgeCreateOk then
      (MPResult.err, LockWord.inUse)      -- goto error, line 584
    else if !env.metricsIterCreateOk then
      (MPResult.err, LockWord.inUse)      -- goto error, line 603
    else if !env.defIterCreateOk then
      (MPResult.err, LockWord.inUse)      -- goto error, lines 625, 636
    else if !env.writeFooterOk then
      (MPResult.err, LockWord.inUse)      -- goto error, line 693
    else
      (MPResult.ok, LockWord.free)        -- line 700, then return 0

/-! ## Helper lemmas -/

theorem string_foldl_append (l : List String) (acc : String) :
    l.foldl (fun r s => r ++ s) acc = acc ++ l.foldl (fun r s => r ++ s) "" := by
  induction l generalizing acc with
  | nil => simp
  | cons a l ih =>
    simp only [List.foldl_cons]
    rw [ih (acc ++ a), ih ("" ++ a)]
    simp [String.append_assoc]

theorem string_join_cons (a : String) (l : List String) :
    String.join (a :: l) = a ++ String.join l := by
  simp only [String.join, List.foldl_cons]
  rw [string_foldl_append l ("" ++ a)]
  simp

/-! ## Claim theorems -/

/-- Claim C3: on a configured cache, `metrics_cache_append` invalidates
the cache (empty zero-filled body, `valid_until = 0`) and returns failure
when the current body length plus the data length reaches the cache size,
and otherwise appends the bytes to the body and returns success. -/
theorem metrics_cache_append_spec (c : PrometheusCache) (d : String) :
    (c.data.length + d.length ≥ c.size →
      metrics_cache_append true c d =
        ({ c with data := "", valid_until := 0 }, false)) ∧
    (c.data.length + d.length < c.size →
      metrics_cache_append true c d = ({ c with data := c.data ++ d }, true)) := by
  constructor
  · intro h
    simp [metrics_cache_append, metrics_cache_invalidate, h]
  · intro h
    have h2 : ¬ (c.data.length + d.length ≥ c.size) := by omega
    simp [metrics_cache_append, h2]

/-- Witness for C3 at concrete caches: an overflowing append invalidates
and fails, a fitting append extends the body and succeeds. -/
theorem metrics_cache_append_spec_witness :
    metrics_cache_append true ⟨9, 10, "abc"⟩ "defghij" =
      (⟨0, 10, ""⟩, false) ∧
    metrics_cache_append true ⟨9, 10, "abc"⟩ "de" =
      (⟨9, 10, "abcde"⟩, true) := by
  constructor
  · exact (metrics_cache_append_spec ⟨9, 10, "abc"⟩ "defghij").1 (by decide)
  · exact (metrics_cache_append_spec ⟨9, 10, "abc"⟩ "de").2 (by decide)

/-- Counterexample to claim C4 as stated: with a configured cache, a
non-empty body and `valid_until` equal to the current time, the code
serves from cache although `valid_until` is not strictly greater than
`now`. -/
theorem metrics_cache_servable_counterexample :
    ¬ (metrics_cache_servable true ⟨5, 10, "x"⟩ 5 = true ↔
        (true = true ∧ ("x" : String) ≠ "" ∧ 5 > 5)) := by
  decide

/-- Claim C4 (amended): the cached body is servable iff the cache is
configured, the body is non-empty, `valid_until` is non-zero, and
`valid_until` is greater than or equal to the current time. -/
theorem metrics_cache_servable_iff (configured : Bool) (c : PrometheusCache)
    (now : Nat) :
    metrics_cache_servable configured c now = true ↔
      (configured = true ∧ c.data ≠ "" ∧ c.valid_until ≠ 0 ∧
        now ≤ c.valid_until) := by
  by_cases h0 : c.valid_until = 0 <;> by_cases h1 : c.data = "" <;>
    simp [metrics_cache_servable, is_metrics_cache_valid, h0, h1]

/-- Witness for C4 (amended) at a concrete cache state. -/
theorem metrics_cache_servable_iff_witness :
    metrics_cache_servable true ⟨5, 10, "x"⟩ 4 = true := by
  exact (metrics_cache_servable_iff true ⟨5, 10, "x"⟩ 4).mpr
    (by refine ⟨rfl, by decide, by decide, by decide⟩)

/-- Counterexample to claim C6 as stated: `safe_prometheus_key` passes a
raw newline character through unchanged, so its output can contain a raw
newline. -/
theorem safe_prometheus_key_newline_counterexample :
    safe_prometheus_key (some "\n") = "\n" ∧
      '\n' ∈ (safe_prometheus_key (some "\n")).data := by
  decide

theorem wellEscaped_cons (c : Char) (rest : List Char) :
    wellEscaped (c :: rest) =
      (if c = '"' then false
       else if c = '\\' then
         match rest with
         | [] => false
         | d :: rest2 => (d = '"' || d = '\\') && wellEscaped rest2
       else wellEscaped rest) := by
  rw [wellEscaped.eq_def]

theorem wellEscaped_char_append (c : Char) (b : Bool) (t : List Char)
    (ht : wellEscaped t = true) :
    wellEscaped (safe_prometheus_key_char c b ++ t) = true := by
  unfold safe_prometheus_key_char
  by_cases h1 : c = '.'
  · rw [if_pos h1]
    cases b
    · show wellEscaped ('_' :: t) = true
      rw [wellEscaped_cons, if_neg (by decide), if_neg (by decide)]
      exact ht
    · show wellEscaped t = true
      exact ht
  · rw [if_neg h1]
    by_cases h2 : c = '"'
    · rw [if_pos (by simp [h2])]
      show wellEscaped ('\\' :: c :: t) = true
      rw [wellEscaped_cons, if_neg (by decide), if_pos rfl]
      simp [h2, ht]
    · by_cases h3 : c = '\\'
      · rw [if_pos (by simp [h3])]
        show wellEscaped ('\\' :: c :: t) = true
        rw [wellEscaped_cons, if_neg (by decide), if_pos rfl]
        simp [h3, ht]
      · rw [if_neg (by simp [h2, h3])]
        show wellEscaped (c :: t) = true
        rw [wellEscaped_cons, if_neg h2, if_neg h3]
        exact ht

theorem wellEscaped_safe_prometheus_key_go (cs : List Char) :
    wellEscaped (safe_prometheus_key_go cs) = true := by
  induction cs with
  | nil => rfl
  | cons c rest ih =>
    exact wellEscaped_char_append c rest.isEmpty _ ih

/-- Claim C6 (amended): for every input, the output of
`safe_prometheus_key` contains no bare double quote and no bare backslash
(every `"` or `\` occurs inside an escape pair `\"` or `\\`); raw newlines
however pass through unchanged. -/
theorem safe_prometheus_key_wellEscaped (key : Option String) :
    wellEscaped (safe_prometheus_key key).data = true := by
  cases key with
  | none => rfl
  | some k =>
    show wellEscaped
      (if k.length = 0 then "" else String.mk (safe_prometheus_key_go k.data)).data = true
    by_cases h : k.length = 0
    · rw [if_pos h]
      rfl
    · rw [if_neg h]
      exact wellEscaped_safe_prometheus_key_go k.data

/-- Counterexample to claim C9 as stated: a CAS-acquiring execution of
`metrics_page` that fails writing the response headers returns through the
`error` label, which does not store FREE back to the cache lock. -/
theorem metrics_page_lock_leak_counterexample :
    (metrics_page_after_lock
      { cacheHit := false, writeCachedOk := true, writeHeaderOk := false,
        bridgeCreateOk := true, metricsIterCreateOk := true,
        defIterCreateOk := true, writeFooterOk := true }).2 ≠
      LockWord.free := by
  decide

/-- Claim C9 (amended): an execution of `metrics_page` that CAS-acquired
the cache lock stores FREE back exactly on the non-error paths; the paths
that fail while writing to the client, creating the bridge, or creating
the iterators return with the lock still IN_USE. -/
theorem metrics_page_lock_release_iff (env : ScrapeEnv) :
    (metrics_page_after_lock env).2 = LockWord.free ↔
      (metrics_page_after_lock env).1 = MPResult.ok := by
  obtain ⟨a, b, c, d, e, f, g⟩ := env
  cases a <;> cases b <;> cases c <;> cases d <;> cases e <;> cases f <;>
    cases g <;> decide

/-- Witness for C9 (amended) at a concrete fully-successful execution. -/
theorem metrics_page_lock_release_iff_witness :
    (metrics_page_after_lock
      { cacheHit := false, writeCachedOk := true, writeHeaderOk := true,
        bridgeCreateOk := true, metricsIterCreateOk := true,
        defIterCreateOk := true, writeFooterOk := true }).2 =
      LockWord.free := by
  exact (metrics_page_lock_release_iff _).mpr (by decide)

/-- Claim C10: with zero configured collectors `collector_pass` accepts
every collector name; with a non-empty configured list it accepts exactly
the names string-equal to a configured one. -/
theorem collector_pass_spec (collectors : List String) (collector : String) :
    (collectors = [] → collector_pass collectors collector = true) ∧
    (collectors ≠ [] →
      (collector_pass collectors collector = true ↔ collector ∈ collectors)) := by
  constructor
  · intro h
    subst h
    rfl
  · intro h
    cases collectors with
    | nil => exact absurd rfl h
    | cons a l =>
      unfold collector_pass
      rw [if_neg (by simp)]
      simp only [List.any_eq_true, decide_eq_true_eq]
      constructor
      · rintro ⟨x, hx, rfl⟩
        exact hx
      · intro hx
        exact ⟨collector, hx, rfl⟩

/-- Witness for C10: the empty allow-list accepts an arbitrary name, a
non-empty allow-list accepts a configured name. -/
theorem collector_pass_spec_witness :
    collector_pass [] "anything" = true ∧
      collector_pass ["general", "settings"] "settings" = true := by
  constructor
  · exact (collector_pass_spec [] "anything").1 rfl
  · exact ((collector_pass_spec ["general", "settings"] "settings").2
      (by decide)).mpr (by decide)

/-- Claim C5: `get_value` returns the result of the first matching rule,
in order: NULL or empty → "0"; "off"/"f"/"(disabled)" → "0"; "on"/"t" →
"1"; "NaN" → "NaN"; a string fully consumed by `strtol` base 10 →
unchanged; a string fully consumed by `strtod` → unchanged; anything
else → "1". -/
theorem get_value_precedence_spec :
    (get_value none = "0") ∧
    (get_value (some "") = "0") ∧
    (∀ v : String, v = "off" ∨ v = "f" ∨ v = "(disabled)" →
      get_value (some v) = "0") ∧
    (∀ v : String, v = "on" ∨ v = "t" → get_value (some v) = "1") ∧
    (get_value (some "NaN") = "NaN") ∧
    (∀ v : String, v ≠ "" → v ≠ "off" → v ≠ "f" → v ≠ "(disabled)" →
      v ≠ "on" → v ≠ "t" → v ≠ "NaN" →
      ((strtol_full v.data = true → get_value (some v) = v) ∧
       (strtod_full v.data = true → get_value (some v) = v) ∧
       (strtol_full v.data = false → strtod_full v.data = false →
         get_value (some v) = "1"))) := by
  refine ⟨rfl, rfl, ?_, ?_, rfl, ?_⟩
  · rintro v (rfl | rfl | rfl) <;> rfl
  · rintro v (rfl | rfl) <;> rfl
  · intro v h1 h2 h3 h4 h5 h6 h7
    refine ⟨?_, ?_, ?_⟩
    · intro hl
      simp [get_value, h1, h2, h3, h4, h5, h6, h7, hl]
    · intro hd
      by_cases hl : strtol_full v.data <;>
        simp [get_value, h1, h2, h3, h4, h5, h6, h7, hl, hd]
    · intro hl hd
      simp [get_value, h1, h2, h3, h4, h5, h6, h7, hl, hd]

/-- Witness for C5 at concrete inputs: an integer string is returned
unchanged, a float string is returned unchanged, an arbitrary word maps
to "1". -/
theorem get_value_precedence_spec_witness :
    get_value (some "123") = "123" ∧
      get_value (some "4.25") = "4.25" ∧
      get_value (some "primary") = "1" := by
  have h := get_value_precedence_spec
  refine ⟨?_, ?_, ?_⟩
  · exact (h.2.2.2.2.2 "123" (by decide) (by decide) (by decide) (by decide)
      (by decide) (by decide) (by decide)).1 (by decide)
  · exact (h.2.2.2.2.2 "4.25" (by decide) (by decide) (by decide) (by decide)
      (by decide) (by decide) (by decide)).2.1 (by decide)
  · exact (h.2.2.2.2.2 "primary" (by decide) (by decide) (by decide)
      (by decide) (by decide) (by decide) (by decide)).2.2 (by decide)
      (by decide)

/-- Counterexample to claim C8 as stated: `strtod` fully consumes "inf",
so `get_value` returns "inf" unchanged, which matches none of the claimed
lexical forms `NaN`, `+Inf`, `-Inf`, integer, decimal. -/
theorem get_value_lexical_counterexample :
    get_value (some "inf") = "inf" ∧ claimed_legal_value "inf" = false := by
  decide

/-- Claim C8 (amended): `get_value` is total and its output is always
"0", "1", "NaN", or the input string itself when that is fully consumed
by `strtol` or `strtod` (C numeric syntax: optional leading whitespace
and sign, decimal or hexadecimal mantissa with optional exponent, or a
case-insensitive `inf` / `infinity` / `nan` spelling). -/
theorem get_value_output_classes (val : Option String) :
    get_value val = "0" ∨ get_value val = "1" ∨ get_value val = "NaN" ∨
      (∃ s, val = some s ∧ get_value val = s ∧
        (strtol_full s.data || strtod_full s.data) = true) := by
  cases val with
  | none => exact Or.inl rfl
  | some v =>
    simp only [get_value]
    split
    · exact Or.inl rfl
    · split
      · exact Or.inl rfl
      · split
        · exact Or.inr (Or.inl rfl)
        · split
          · rename_i hnan
            exact Or.inr (Or.inr (Or.inl hnan))
          · split
            · rename_i hl
              exact Or.inr (Or.inr (Or.inr ⟨v, rfl, rfl, by simp [hl]⟩))
            · split
              · rename_i hd
                exact Or.inr (Or.inr (Or.inr ⟨v, rfl, rfl, by simp [hd]⟩))
              · exact Or.inr (Or.inl rfl)

theorem takeWhile_until_space (p r : List Char)
    (hp : p.all (fun c => c ≠ ' ') = true) :
    (p ++ ' ' :: r).takeWhile (fun c => c ≠ ' ') = p := by
  induction p with
  | nil => simp [List.takeWhile]
  | cons a q ih =>
    rw [List.all_cons, Bool.and_eq_true] at hp
    simp only [List.cons_append, List.takeWhile_cons, hp.1, if_true]
    rw [ih hp.2]

theorem route_eq_badRequest_iff (req : List Char) :
    pgexporter_prometheus_route req = HttpOutcome.badRequest400 ↔
      resolve_page req = Page.badRequest := by
  unfold pgexporter_prometheus_route
  cases h : resolve_page req <;> simp

theorem resolve_page_badRequest_iff (req : List Char) :
    resolve_page req = Page.badRequest ↔ req.take 3 ≠ ['G', 'E', 'T'] := by
  unfold resolve_page
  by_cases hTake : req.take 3 = ['G', 'E', 'T']
  · have hlen : ¬ req.length < 3 := by
      intro hl
      have := congrArg List.length hTake
      simp [List.length_take] at this
      omega
    rw [if_neg (by simp [hlen, hTake])]
    simp only [hTake, ne_eq, not_true_eq_false, iff_false]
    split
    · simp
    · split <;> simp
  · rw [if_pos (by simp [hTake])]
    simp [hTake]

/-- Claim C7: the responder returns 400 Bad Request exactly for requests
not beginning with `GET`; a well-formed `GET <path> <rest>` request is
routed to the HTML index for path `/` or `/index.html`, to the metrics
scrape for `/metrics`, and to 403 Forbidden for any other path. -/
theorem prometheus_routing_spec (req : List Char) :
    (pgexporter_prometheus_route req = HttpOutcome.badRequest400 ↔
      req.take 3 ≠ ['G', 'E', 'T']) ∧
    (∀ p r : List Char, p.all (fun c => c ≠ ' ') = true →
      req = 'G' :: 'E' :: 'T' :: ' ' :: (p ++ ' ' :: r) →
      pgexporter_prometheus_route req =
        (if p = "/".data ∨ p = "/index.html".data then HttpOutcome.htmlIndex
         else if p = "/metrics".data then HttpOutcome.metricsScrape
         else HttpOutcome.forbidden403)) := by
  constructor
  · exact (route_eq_badRequest_iff req).trans (resolve_page_badRequest_iff req)
  · intro p r hp hreq
    subst hreq
    unfold pgexporter_prometheus_route resolve_page
    rw [if_neg (by simp [List.length_append])]
    have hdrop : (('G' :: 'E' :: 'T' :: ' ' :: (p ++ ' ' :: r)) :
        List Char).drop 4 = p ++ ' ' :: r := rfl
    rw [hdrop, takeWhile_until_space p r hp]
    by_cases h1 : p = "/".data ∨ p = "/index.html".data
    · rw [if_pos (by simpa using h1), if_pos h1]
    · rw [if_neg (by simpa using h1), if_neg h1]
      by_cases h2 : p = "/metrics".data
      · rw [if_pos h2, if_pos h2]
      · rw [if_neg h2, if_neg h2]

/-- Witness for C7 at concrete requests: `GET /metrics` scrapes, `GET /`
serves the index, `GET /favicon.ico` is forbidden, and a POST is a bad
request. -/
theorem prometheus_routing_spec_witness :
    pgexporter_prometheus_route "GET /metrics HTTP/1.1".data =
      HttpOutcome.metricsScrape ∧
    pgexporter_prometheus_route "GET / HTTP/1.1".data =
      HttpOutcome.htmlIndex ∧
    pgexporter_prometheus_route "GET /favicon.ico HTTP/1.1".data =
      HttpOutcome.forbidden403 ∧
    pgexporter_prometheus_route "POST /metrics HTTP/1.1".data =
      HttpOutcome.badRequest400 := by
  refine ⟨?_, ?_, ?_, ?_⟩
  · rw [(prometheus_routing_spec "GET /metrics HTTP/1.1".data).2
      "/metrics".data "HTTP/1.1".data (by decide) (by decide)]
    decide
  · rw [(prometheus_routing_spec "GET / HTTP/1.1".data).2
      "/".data "HTTP/1.1".data (by decide) (by decide)]
    decide
  · rw [(prometheus_routing_spec "GET /favicon.ico HTTP/1.1".data).2
      "/favicon.ico".data "HTTP/1.1".data (by decide) (by decide)]
    decide
  · exact (prometheus_routing_spec "POST /metrics HTTP/1.1".data).1.mpr
      (by decide)

theorem intercalate_go_eq (s : String) (as : List String) (acc : String) :
    String.intercalate.go acc s as =
      acc ++ String.join (as.map (fun a => s ++ a)) := by
  induction as generalizing acc with
  | nil => simp [String.intercalate.go, String.join]
  | cons a as ih =>
    rw [String.intercalate.go, ih, List.map_cons, string_join_cons]
    simp [String.append_assoc]

theorem intercalate_eq_join (s a : String) (as : List String) :
    String.intercalate s (a :: as) =
      a ++ String.join (as.map (fun x => s ++ x)) := by
  rw [String.intercalate]
  exact intercalate_go_eq s as a

theorem attrs_text_eq_intercalate (l : List PAttribute) :
    attrs_text l = String.intercalate ", "
      (l.map (fun a => a.key ++ "=\"" ++ a.value ++ "\"")) := by
  induction l with
  | nil => rfl
  | cons a rest ih =>
    rw [List.map_cons, intercalate_eq_join, attrs_text]
    cases rest with
    | nil =>
      rw [if_pos (show ([] : List PAttribute).isEmpty = true from rfl)]
      simp [attrs_text, String.join]
    | cons b m =>
      rw [if_neg (by simp), ih, List.map_cons, intercalate_eq_join,
        List.map_cons, string_join_cons]
      rw [String.append_assoc (a.key ++ "=\"" ++ a.value ++ "\"") ", ",
        String.append_assoc ", "]

theorem definitions_text_eq_join (name : String) (l : List PAttributes) :
    definitions_text name l = String.join (l.map (definition_line name)) := by
  induction l with
  | nil => rfl
  | cons d rest ih =>
    rw [definitions_text, ih, List.map_cons, string_join_cons]

theorem metrics_page_body_eq_join (ms : List PMetric) :
    metrics_page_body ms = String.join (ms.map family_text) := by
  induction ms with
  | nil => rfl
  | cons m rest ih =>
    rw [metrics_page_body, ih, List.map_cons, string_join_cons]

/-- Counterexample to claim C1 as stated: on a registry holding one
family produced by a scrape, the code emits `#HELP` / `#TYPE` (no space
after `#`) and joins labels with `", "`, so the body differs from the
claimed `# HELP` / `# TYPE` / `","` format. -/
theorem metrics_page_format_counterexample :
    metrics_page_body
      [⟨"pgexporter_postgresql_active", "The state of PostgreSQL", "gauge",
        [⟨[⟨"server", "primary"⟩, ⟨"version", "17"⟩], [⟨0, "1"⟩]⟩]⟩] ≠
    claimed_metrics_page_body
      [⟨"pgexporter_postgresql_active", "The state of PostgreSQL", "gauge",
        [⟨[⟨"server", "primary"⟩, ⟨"version", "17"⟩], [⟨0, "1"⟩]⟩]⟩] := by
  decide

/-- Claim C1 (amended): `metrics_page` serializes each metric family as a
`#HELP <name> <help>` line, then a `#TYPE <name> <kind>` line, then one
line per series of the form `<name>{lk1="lv1", lk2="lv2", ...} <value>`
(labels joined by a comma and a space), each family chunk ending with one
blank line. -/
theorem metrics_page_format_amended (ms : List PMetric) :
    metrics_page_body ms = String.join (ms.map (fun m =>
      "#HELP " ++ m.name ++ " " ++ m.help ++ "\n" ++
      "#TYPE " ++ m.name ++ " " ++ m.type ++ "\n" ++
      String.join (m.definitions.map (fun d =>
        m.name ++ "\x7b" ++
        String.intercalate ", " (d.attributes.map (fun a =>
          a.key ++ "=\"" ++ a.value ++ "\"")) ++
        "\x7d " ++ peek_last_value d.values ++ "\n")) ++ "\n")) := by
  rw [metrics_page_body_eq_join]
  congr 1
  apply List.map_congr_left
  intro m _
  rw [family_text, definitions_text_eq_join]
  have hmap : List.map (definition_line m.name) m.definitions =
      List.map (fun d =>
        m.name ++ "\x7b" ++
        String.intercalate ", " (d.attributes.map (fun a =>
          a.key ++ "=\"" ++ a.value ++ "\"")) ++
        "\x7d " ++ peek_last_value d.values ++ "\n") m.definitions := by
    apply List.map_congr_left
    intro d _
    rw [definition_line, attrs_text_eq_intercalate]
  rw [hmap]

/-- Claim C2: for a histogram tuple whose parsed bounds array has `n`
elements (and matching parsed counts), `handle_histogram` emits `n`
bucket series where the `i`-th carries `le = bounds[i]` and value
`cumulative_counts[i]`, plus one synthesized `le="+Inf"` series whose
value is the tuple's count column, and one sum series and one count
series carrying the `server` label. -/
theorem handle_histogram_series_spec (now : Nat) (tag description : String)
    (t : HTuple) (n : Nat)
    (hb : (parse_list t.bounds_str).length = n)
    (hk : (parse_list t.buckets_str).length = n) :
    ((handle_histogram now tag description [t]).1.definitions.length = n + 1) ∧
    (∀ i, i < n →
      (handle_histogram now tag description [t]).1.definitions.getD i ⟨[], []⟩ =
        { attributes := { key := "le", value := (parse_list t.bounds_str).getD i "" } ::
            { key := "server", value := t.server } :: t.labels,
          values := [{ timestamp := now, value := (parse_list t.buckets_str).getD i "" }] }) ∧
    ((handle_histogram now tag description [t]).1.definitions.getD n ⟨[], []⟩ =
      { attributes := { key := "le", value := "+Inf" } ::
          { key := "server", value := t.server } :: t.labels,
        values := [{ timestamp := now, value := t.count_str }] }) ∧
    ((handle_histogram now tag description [t]).2.1.definitions =
      [{ attributes := { key := "server", value := t.server } :: t.labels,
         values := [{ timestamp := now, value := t.sum_str }] }]) ∧
    ((handle_histogram now tag description [t]).2.2.definitions =
      [{ attributes := { key := "server", value := t.server } :: t.labels,
         values := [{ timestamp := now, value := t.count_str }] }]) := by
  have hdefs : (handle_histogram now tag description [t]).1.definitions =
      histogram_bucket_defs now t := by
    simp [handle_histogram]
  have hform : histogram_bucket_defs now t =
      ((List.range n).map (fun i =>
        ({ attributes := { key := "le", value := (parse_list t.bounds_str).getD i "" } ::
            { key := "server", value := t.server } :: t.labels,
           values := [{ timestamp := now, value := (parse_list t.buckets_str).getD i "" }] } :
          PAttributes))) ++
      [{ attributes := { key := "le", value := "+Inf" } ::
          { key := "server", value := t.server } :: t.labels,
         values := [{ timestamp := now, value := t.count_str }] }] := by
    simp only [histogram_bucket_defs]
    rw [hb]
  refine ⟨?_, ?_, ?_, ?_, ?_⟩
  · rw [hdefs, hform]
    simp
  · intro i hi
    rw [hdefs, hform, List.getD_eq_getElem?_getD,
      List.getElem?_append_left (by simpa using hi),
      List.getElem?_map, List.getElem?_range hi]
    rfl
  · rw [hdefs, hform, List.getD_eq_getElem?_getD,
      List.getElem?_append_right (by simp)]
    simp
  · simp [handle_histogram, histogram_sum_def]
  · simp [handle_histogram, histogram_count_def]

/-- Witness for C2 at the spec's example tuple: bounds `{0.1,0.5,1}`,
counts `{2,5,7}`, `sum=3.14`, `count=9` yield bucket series
`le="0.5" ↦ 5` at index 1, the `+Inf` bucket `9` at index 3, and the sum
and count series `3.14` and `9`. -/
theorem handle_histogram_series_spec_witness :
    ((handle_histogram 7 "query_histogram" "histogram description"
        [⟨[], "s1", "{0.1,0.5,1}", "{2,5,7}", "3.14", "9"⟩]).1.definitions.getD 1 ⟨[], []⟩ =
      { attributes := [⟨"le", "0.5"⟩, ⟨"server", "s1"⟩],
        values := [⟨7, "5"⟩] }) ∧
    ((handle_histogram 7 "query_histogram" "histogram description"
        [⟨[], "s1", "{0.1,0.5,1}", "{2,5,7}", "3.14", "9"⟩]).1.definitions.getD 3 ⟨[], []⟩ =
      { attributes := [⟨"le", "+Inf"⟩, ⟨"server", "s1"⟩],
        values := [⟨7, "9"⟩] }) ∧
    ((handle_histogram 7 "query_histogram" "histogram description"
        [⟨[], "s1", "{0.1,0.5,1}", "{2,5,7}", "3.14", "9"⟩]).2.1.definitions =
      [{ attributes := [⟨"server", "s1"⟩], values := [⟨7, "3.14"⟩] }]) ∧
    ((handle_histogram 7 "query_histogram" "histogram description"
        [⟨[], "s1", "{0.1,0.5,1}", "{2,5,7}", "3.14", "9"⟩]).2.2.definitions =
      [{ attributes := [⟨"server", "s1"⟩], values := [⟨7, "9"⟩] }]) := by
  have h := handle_histogram_series_spec 7 "query_histogram"
    "histogram description" ⟨[], "s1", "{0.1,0.5,1}", "{2,5,7}", "3.14", "9"⟩ 3
    (by decide) (by decide)
  refine ⟨?_, ?_, ?_, ?_⟩
  · rw [h.2.1 1 (by omega)]
    decide
  · rw [h.2.2.1]
  · rw [h.2.2.2.1]
  · rw [h.2.2.2.2]

end Pgexporter
